import Mathlib

/-!
Verification development for the Eva backend memory/context subsystem.

The definitions below are a shallow embedding of
`app/services/memory_service.py` (MemoryService) and
`app/services/gemini_service.py` (GeminiService session cache).

Modelling conventions:
- Firestore collections are modelled as Lean lists of documents.  The
  short-term collection is kept in ascending `timestamp` order (the store
  is append-only with a monotone clock), so an `order_by timestamp DESC,
  limit n` query followed by the code's `reversed` is "the last `n`
  elements in chronological order".  The long-term collection is a list of
  `(document id, Fact)` pairs; an `order_by importance DESC, limit n`
  query is a stable sort by descending importance followed by `take n`.
- `datetime.utcnow()` is modelled by explicit `Nat` clock-reading
  parameters (seconds); the Python code reads the clock several times in
  one call, so each reading is a separate parameter, in source order.
- `hashlib.sha256(...).hexdigest()[:16]` is an external primitive and is
  taken as an opaque deterministic function parameter `hashFn`.
- Python truthiness on `Optional[str]` arguments (`if session_id:`) is
  modelled exactly: `None` and the empty string both fail the test.
- The OpenAI summarization call is an oracle `Except String String`
  (exception message or returned text) and `json.loads` is an oracle
  `String → Option SummaryResult` (`none` models `JSONDecodeError`).
- The in-process conversation-history dict of `GeminiService` is an
  association list in insertion order, with Python `dict` semantics:
  assignment replaces the first (unique) binding in place, insertion
  appends at the end, `del` removes the binding.
-/

set_option autoImplicit false

namespace Eva

/-- Short-term message document, `users/\x7buserId\x7d/short_term_context`. -/
structure Message where
  role : String
  content : String
  session_id : Option String
  metadata : List (String × String)
  timestamp : Nat
  expires_at : Nat
  deriving Repr, DecidableEq

/-- Long-term memory document, `users/\x7buserId\x7d/long_term_memory`. -/
structure Fact where
  category : String
  content : String
  content_hash : String
  importance : Int
  metadata : List (String × String)
  created_at : Nat
  updated_at : Nat
  access_count : Nat
  deriving Repr, DecidableEq

/-- A `\x7b"role": ..., "content": ...\x7d` entry handed to the AI model. -/
structure ChatEntry where
  role : String
  content : String
  deriving Repr, DecidableEq

/-- `self.short_term_expiry_hours = 24` (MemoryService.__init__). -/
def short_term_expiry_hours : Nat := 24

/-- `timedelta(hours=self.short_term_expiry_hours)` in seconds. -/
def short_term_ttl : Nat := short_term_expiry_hours * 3600

/-- MemoryService.add_message.  The code builds the document with two
separate `datetime.utcnow()` calls: `now1` is the reading used for
`timestamp`, `now2` the (later) reading used for `expires_at`. -/
def add_message (now1 now2 : Nat) (role content : String)
    (session_id : Option String) (metadata : Option (List (String × String))) :
    Message :=
  { role := role
    content := content
    session_id := session_id
    metadata := metadata.getD []
    timestamp := now1
    expires_at := now2 + short_term_ttl }

/-- Python truthiness test on an `Optional[str]`: `if session_id:`. -/
def optStrTruthy (s : Option String) : Bool :=
  match s with
  | none => false
  | some s => !(s = "")

/-- The documents a short-term query scoped by `session_id` ranges over:
the `FieldFilter("session_id", "==", s)` filter when `session_id` is
truthy, the whole collection otherwise. -/
def scopedShortTerm (msgs : List Message) (session_id : Option String) :
    List Message :=
  match session_id with
  | some s => if s = "" then msgs else msgs.filter (fun m => m.session_id == some s)
  | none => msgs

/-- MemoryService.get_recent_messages: order by timestamp descending,
take `limit`, then return in chronological order (`reversed`). -/
def get_recent_messages (msgs : List Message) (limit : Nat)
    (session_id : Option String) : List Message :=
  ((scopedShortTerm msgs session_id).reverse.take limit).reverse

/-- MemoryService.get_conversation_context: recent messages reduced to
`\x7b"role", "content"\x7d`. -/
def get_conversation_context (msgs : List Message) (limit : Nat) :
    List ChatEntry :=
  (get_recent_messages msgs limit none).map
    (fun m => { role := m.role, content := m.content })

/-- The delete loop of MemoryService.clear_short_term_context: documents
are added to a write batch, the batch is committed every time the running
count reaches a multiple of 500, and a trailing commit flushes the
remainder.  Returns the list of committed batches and the final count. -/
def clearLoop : List Message → List Message → Nat →
    List (List Message) × Nat
  | [], batch, count =>
      (if count % 500 != 0 then [batch] else [], count)
  | d :: ds, batch, count =>
      let batch' := batch ++ [d]
      let count' := count + 1
      if count' % 500 == 0 then
        let r := clearLoop ds [] count'
        (batch' :: r.1, r.2)
      else
        clearLoop ds batch' count'

/-- MemoryService.clear_short_term_context: batch-deletes every document
in scope and returns the committed batches with the reported count. -/
def clear_short_term_context (msgs : List Message)
    (session_id : Option String) : List (List Message) × Nat :=
  clearLoop (scopedShortTerm msgs session_id) [] 0

/-- `min(max(importance, 1), 10)` — the clamp in save_memory. -/
def clampImportance (i : Int) : Int := min (max i 1) 10

/-- MemoryService.save_memory.  `hashFn` stands for
`hashlib.sha256(content.encode()).hexdigest()[:16]`; `freshId` is the
auto-generated document id of `collection.add`; `now1`/`now2` are the two
`datetime.utcnow()` readings for `created_at` and `updated_at`.  Returns
the created document and the new collection state. -/
def save_memory (hashFn : String → String) (freshId : String)
    (now1 now2 : Nat) (store : List (String × Fact))
    (category content : String) (importance : Int)
    (metadata : Option (List (String × String))) :
    Fact × List (String × Fact) :=
  let memory_data : Fact :=
    { category := category
      content := content
      content_hash := hashFn content
      importance := clampImportance importance
      metadata := metadata.getD []
      created_at := now1
      updated_at := now2
      access_count := 0 }
  (memory_data, store ++ [(freshId, memory_data)])

/-- Insert one document into a list already sorted by descending
importance, keeping earlier documents first on ties (stable). -/
def insertFactDesc (f : String × Fact) :
    List (String × Fact) → List (String × Fact)
  | [] => [f]
  | g :: gs =>
      if g.2.importance < f.2.importance then f :: g :: gs
      else g :: insertFactDesc f gs

/-- Stable sort by descending importance: the store-side
`order_by("importance", direction="DESCENDING")`. -/
def sortByImportanceDesc : List (String × Fact) → List (String × Fact)
  | [] => []
  | f :: fs => insertFactDesc f (sortByImportanceDesc fs)

/-- MemoryService.get_memories: order by importance descending, take
`limit`, optionally filtered by truthy `category`. -/
def get_memories (store : List (String × Fact)) (category : Option String)
    (limit : Nat) : List (String × Fact) :=
  let base :=
    match category with
    | some c =>
        if c = "" then store else store.filter (fun p => p.2.category == c)
    | none => store
  (sortByImportanceDesc base).take limit

/-- The `updates` dict passed to MemoryService.update_memory: each field
that the dict mentions carries a value, the rest are absent. -/
structure FactUpdates where
  category : Option String := none
  content : Option String := none
  importance : Option Int := none
  metadata : Option (List (String × String)) := none
  deriving Repr, DecidableEq

/-- Applying `doc_ref.update(updates)` after the code sets
`updates["updated_at"] = datetime.utcnow()`: mentioned fields are
overwritten verbatim (no clamping, no re-hashing), `updated_at` is always
set to the clock reading. -/
def applyUpdates (f : Fact) (u : FactUpdates) (now : Nat) : Fact :=
  { f with
    category := u.category.getD f.category
    content := u.content.getD f.content
    importance := u.importance.getD f.importance
    metadata := u.metadata.getD f.metadata
    updated_at := now }

/-- MemoryService.update_memory: existence-checked field update; returns
the updated document (or `none`) and the new collection state. -/
def update_memory (store : List (String × Fact)) (memory_id : String)
    (u : FactUpdates) (now : Nat) :
    Option Fact × List (String × Fact) :=
  match store.find? (fun p => p.1 == memory_id) with
  | none => (none, store)
  | some pf =>
      let f' := applyUpdates pf.2 u now
      (some f', store.map (fun p => if p.1 == memory_id then (p.1, f') else p))

/-- One element of the `"facts"` list of a parsed summarization payload;
every key may be absent (`fact.get(...)` defaults are applied later). -/
structure FactPayload where
  category : Option String := none
  content : Option String := none
  importance : Option Int := none
  deriving Repr, DecidableEq

/-- The dict returned by MemoryService.summarize_conversation.  Each
field is `none` when the corresponding key is absent from the dict. -/
structure SummaryResult where
  summary : Option String := none
  facts : Option (List FactPayload) := none
  topics : Option (List String) := none
  error : Option String := none
  deriving Repr, DecidableEq

/-- MemoryService.summarize_conversation.  `parse` is the `json.loads`
oracle (`none` = JSONDecodeError), `call` the OpenAI completion oracle
(`Except.error e` = an exception whose message is `e`), `messagesOpt` the
optional explicit message list, `shortTerm` the user's short-term
collection used when `messages is None`. -/
def summarize_conversation (parse : String → Option SummaryResult)
    (call : Except String String) (messagesOpt : Option (List ChatEntry))
    (shortTerm : List Message) : SummaryResult :=
  let messages :=
    match messagesOpt with
    | none => get_conversation_context shortTerm 30
    | some ms => ms
  if messages = [] then
    { summary := some "", facts := some [],
      error := some "No messages to summarize" }
  else
    match call with
    | Except.error e =>
        { summary := some "", facts := some [], topics := some [],
          error := some e }
    | Except.ok result_text =>
        match parse result_text with
        | some result => result
        | none =>
            { summary := some result_text, facts := some [],
              topics := some [], error := none }

/-- The dict returned by MemoryService.compress_to_long_term: the
summarization result passed through unchanged on error, or the success
shape with the saved facts. -/
inductive CompressResult where
  | errorResult (r : SummaryResult)
  | ok (summary : String) (topics : List String) (facts_saved : Nat)
      (facts : List Fact)
  deriving Repr, DecidableEq

/-- The fact-saving loop of compress_to_long_term: each extracted fact is
persisted via save_memory with `.get` defaults and the provenance
metadata.  `freshIds` supplies the auto-generated document ids. -/
def saveFactsLoop (hashFn : String → String) (now1 now2 : Nat) :
    List FactPayload → List String → List (String × Fact) →
    List Fact × List (String × Fact)
  | [], _, store => ([], store)
  | f :: fs, ids, store =>
      let r := save_memory hashFn (ids.headD "") now1 now2 store
        (f.category.getD "fact") (f.content.getD "")
        (f.importance.getD 5)
        (some [("source", "conversation_compression")])
      let rest := saveFactsLoop hashFn now1 now2 fs ids.tail r.2
      (r.1 :: rest.1, rest.2)

/-- MemoryService.compress_to_long_term: summarize the recent
conversation, propagate an error result unchanged, otherwise persist the
extracted facts.  Returns the result and the new long-term collection. -/
def compress_to_long_term (hashFn : String → String)
    (freshIds : List String) (now1 now2 : Nat)
    (parse : String → Option SummaryResult) (call : Except String String)
    (shortTerm : List Message) (store : List (String × Fact)) :
    CompressResult × List (String × Fact) :=
  let summary_result := summarize_conversation parse call none shortTerm
  if summary_result.error.isSome then
    (CompressResult.errorResult summary_result, store)
  else
    let saved := saveFactsLoop hashFn now1 now2
      (summary_result.facts.getD []) freshIds store
    (CompressResult.ok (summary_result.summary.getD "")
      (summary_result.topics.getD []) saved.1.length saved.1, saved.2)

/-- MemoryService.build_context: an optional synthetic system entry
rendered from the top long-term facts, followed by the recent
conversation. -/
def build_context (facts : List (String × Fact)) (msgs : List Message)
    (include_long_term : Bool) (short_term_limit long_term_limit : Nat) :
    List ChatEntry :=
  let context : List ChatEntry :=
    if include_long_term then
      let memories := get_memories facts none long_term_limit
      if memories.isEmpty then []
      else
        let memory_text := "User information from previous conversations:\n"
          ++ String.intercalate "\n"
              (memories.map (fun mem => "- " ++ mem.2.content))
        [{ role := "system", content := memory_text }]
    else []
  context ++ get_conversation_context msgs short_term_limit

/-- One `types.Content(role=..., parts=[Part.from_text(text=...)])` entry
of a cached conversation history. -/
structure ContentEntry where
  role : String
  text : String
  deriving Repr, DecidableEq

/-- GeminiService._conversation_histories: an insertion-ordered dict from
session key to history. -/
abbrev Histories := List (String × List ContentEntry)

/-- GeminiService._get_session_key:
`f"\x7buser_id\x7d:\x7bconversation_id or 'default'\x7d"` — Python `or`
replaces both `None` and the empty string by "default". -/
def sessionKey (user_id : String) (conversation_id : Option String) :
    String :=
  user_id ++ ":" ++
    (match conversation_id with
     | some c => if c = "" then "default" else c
     | none => "default")

/-- Dict lookup on the history map. -/
def lookupHist (m : Histories) (k : String) : Option (List ContentEntry) :=
  (m.find? (fun p => p.1 == k)).map (fun p => p.2)

/-- Dict assignment `m[k] = v`: replace the binding in place, or append a
new one. -/
def setHist : Histories → String → List ContentEntry → Histories
  | [], k, v => [(k, v)]
  | p :: rest, k, v =>
      if p.1 == k then (k, v) :: rest else p :: setHist rest k v

/-- GeminiService._get_history: return the history for the key, creating
an empty one (a dict mutation) if absent.  Returns the history and the
possibly-extended dict. -/
def get_history (m : Histories) (user_id : String)
    (conversation_id : Option String) :
    List ContentEntry × Histories :=
  let key := sessionKey user_id conversation_id
  match lookupHist m key with
  | some h => (h, m)
  | none => ([], m ++ [(key, [])])

/-- GeminiService._append_to_history: append one Content entry to the
history for the key. -/
def append_to_history (m : Histories) (user_id : String)
    (conversation_id : Option String) (role text : String) : Histories :=
  let key := sessionKey user_id conversation_id
  let r := get_history m user_id conversation_id
  setHist r.2 key (r.1 ++ [{ role := role, text := text }])

/-- Behaviour of one `generate_content_stream` iteration: the chunk texts
yielded before the stream ends (possibly falsy, skipped by
`if chunk.text:`), and whether the stream raises after them instead of
completing. -/
structure StreamBehavior where
  chunks : List String
  fails : Bool
  deriving Repr, DecidableEq

/-- GeminiService.send_message_stream: yield the non-empty chunks while
accumulating `full_response`; on normal completion append user message
and full response to the history; on an exception yield the apology and
leave the histories as they were after the initial `_get_history`.
Returns the yielded chunks and the resulting history dict. -/
def send_message_stream (m : Histories) (user_id : String)
    (conversation_id : Option String) (message : String)
    (stream : StreamBehavior) : List String × Histories :=
  let r := get_history m user_id conversation_id
  let yielded := stream.chunks.filter (fun c => !(c = ""))
  let full_response := String.join yielded
  if stream.fails then
    (yielded ++ ["I\x27m sorry, I encountered an issue. Please try again."],
     r.2)
  else
    let m1 := append_to_history r.2 user_id conversation_id "user" message
    let m2 := append_to_history m1 user_id conversation_id "model"
      full_response
    (yielded, m2)

/-- GeminiService.clear_conversation: `del` the key if present. -/
def clear_conversation (m : Histories) (user_id : String)
    (conversation_id : Option String) : Histories :=
  let key := sessionKey user_id conversation_id
  if (lookupHist m key).isSome then
    m.filter (fun p => !(p.1 == key))
  else m

/-- Python `key.startswith(pfx)`. -/
def strStartsWith (s pfx : String) : Bool :=
  pfx.toList.isPrefixOf s.toList

/-- Leftmost non-overlapping replacement pass over the characters, with
fuel bounding the recursion (fuel = input length suffices, since every
step consumes at least one character). -/
def replaceFromChars (pat rep : List Char) :
    Nat → List Char → List Char
  | _, [] => []
  | 0, s => s
  | fuel + 1, c :: rest =>
      if pat.isPrefixOf (c :: rest) then
        rep ++ replaceFromChars pat rep fuel (rest.drop (pat.length - 1))
      else
        c :: replaceFromChars pat rep fuel rest

/-- Python `s.replace(pat, rep)` for a non-empty pattern: replace every
non-overlapping occurrence, scanning left to right. -/
def pythonReplace (s pat rep : String) : String :=
  if pat = "" then s
  else String.mk (replaceFromChars pat.toList rep.toList s.toList.length
    s.toList)

/-- GeminiService.get_active_conversations:
`[key.replace(pfx, "") for key in histories if key.startswith(pfx)]`
with `pfx = f"\x7buser_id\x7d:"`. -/
def get_active_conversations (m : Histories) (user_id : String) :
    List String :=
  let pfx := user_id ++ ":"
  (m.filter (fun p => strStartsWith p.1 pfx)).map
    (fun p => pythonReplace p.1 pfx "")

/-- Observed content of a cached history: an absent key reads as the
empty history (exactly what _get_history hands back). -/
def histVal (m : Histories) (user_id : String)
    (conversation_id : Option String) : List ContentEntry :=
  (lookupHist m (sessionKey user_id conversation_id)).getD []

/-! ## Lemmas about the session-cache dict -/

/-- Dict assignment makes the value readable at the assigned key. -/
theorem lookupHist_setHist_self (m : Histories) (k : String)
    (v : List ContentEntry) : lookupHist (setHist m k v) k = some v := by
  induction m with
  | nil => simp [setHist, lookupHist]
  | cons p rest ih =>
      by_cases h : p.1 = k
      · simp [setHist, lookupHist, h]
      · simpa [setHist, lookupHist, h] using ih

/-- Removing every binding of a key makes it unreadable. -/
theorem lookupHist_filter_self (m : Histories) (k : String) :
    lookupHist (m.filter (fun p => !(p.1 == k))) k = none := by
  have hf : (m.filter (fun p => !(p.1 == k))).find?
      (fun p => p.1 == k) = none := by
    rw [List.find?_eq_none]
    intro x hx
    have hmem := List.of_mem_filter hx
    simp only [Bool.not_eq_true', beq_eq_false_iff_ne, ne_eq] at hmem
    simp [hmem]
  simp [lookupHist, hf]

/-- The history _get_history returns is the observed history. -/
theorem get_history_fst (m : Histories) (user_id : String)
    (conversation_id : Option String) :
    (get_history m user_id conversation_id).1 =
      histVal m user_id conversation_id := by
  unfold get_history histVal
  cases h : lookupHist m (sessionKey user_id conversation_id) <;> simp [h]

/-- The lazy empty-history insertion of _get_history does not change the
observed history of the key. -/
theorem histVal_get_history_snd (m : Histories) (user_id : String)
    (conversation_id : Option String) :
    histVal (get_history m user_id conversation_id).2 user_id
      conversation_id = histVal m user_id conversation_id := by
  unfold get_history
  cases h : lookupHist m (sessionKey user_id conversation_id) with
  | some v => simp [h]
  | none =>
      have hf : m.find?
          (fun p => p.1 == sessionKey user_id conversation_id) = none := by
        unfold lookupHist at h
        exact Option.map_eq_none'.mp h
      simp [histVal, lookupHist, List.find?_append, hf, h]

/-- _append_to_history appends exactly one entry to the observed
history of its key. -/
theorem histVal_append_to_history (m : Histories) (user_id : String)
    (conversation_id : Option String) (role text : String) :
    histVal (append_to_history m user_id conversation_id role text)
        user_id conversation_id =
      histVal m user_id conversation_id ++
        [{ role := role, text := text }] := by
  show (lookupHist
      (setHist (get_history m user_id conversation_id).2
        (sessionKey user_id conversation_id)
        ((get_history m user_id conversation_id).1 ++
          [{ role := role, text := text }]))
      (sessionKey user_id conversation_id)).getD [] = _
  rw [lookupHist_setHist_self, Option.getD_some, get_history_fst]

/-! ## Claims about the session cache -/

/-- C7: in the streaming chat path, a stream that raises mid-way leaves
the session-cache history for the key unchanged (no partial text is
appended), while a completed stream appends the user turn followed by the
full accumulated response. -/
theorem C7_stream_history_integrity (m : Histories) (user_id : String)
    (conversation_id : Option String) (message : String)
    (chunks : List String) :
    histVal (send_message_stream m user_id conversation_id message
        { chunks := chunks, fails := true }).2 user_id conversation_id =
      histVal m user_id conversation_id ∧
    histVal (send_message_stream m user_id conversation_id message
        { chunks := chunks, fails := false }).2 user_id conversation_id =
      histVal m user_id conversation_id ++
        [{ role := "user", text := message },
         { role := "model",
           text := String.join (chunks.filter (fun c => !(c = ""))) }] := by
  constructor
  · simp [send_message_stream, histVal_get_history_snd]
  · simp [send_message_stream, histVal_append_to_history,
      histVal_get_history_snd]

/-- C9: clearing a conversation and then reading its history yields the
empty sequence, not the pre-clear content. -/
theorem C9_clear_then_get_history_empty (m : Histories) (user_id : String)
    (conversation_id : Option String) :
    (get_history (clear_conversation m user_id conversation_id)
        user_id conversation_id).1 = [] := by
  rw [get_history_fst]
  unfold clear_conversation histVal
  by_cases h :
      (lookupHist m (sessionKey user_id conversation_id)).isSome = true
  · simp [h, lookupHist_filter_self]
  · cases hh : lookupHist m (sessionKey user_id conversation_id) with
    | some v => simp [hh] at h
    | none => simp [h, hh]

/-- C10: session keys are built by string concatenation, so the distinct
pairs (user "a:b", conversation "c") and (user "a", conversation "b:c")
share the key "a:b:c": a turn appended for user "a:b" is visible through
get_history for user "a", and get_active_conversations "a" enumerates the
conversation of user "a:b" — per-user isolation fails. -/
theorem C10_session_key_collision :
    ("a:b" : String) ≠ "a" ∧
    sessionKey "a:b" (some "c") = sessionKey "a" (some "b:c") ∧
    (get_history (append_to_history [] "a:b" (some "c") "user" "hello")
        "a" (some "b:c")).1 = [{ role := "user", text := "hello" }] ∧
    get_active_conversations
        (append_to_history [] "a:b" (some "c") "user" "hello") "a" =
      ["b:c"] := by
  decide

/-! ## Lemmas about the short-term delete loop -/

/-- Invariant of the clear_short_term_context loop: starting from a
pending batch whose size equals the running count modulo 500, the loop
commits every scoped document exactly once, reports the exact total, and
never commits a batch of more than 500 deletes. -/
theorem clearLoop_spec (docs : List Message) :
    ∀ (batch : List Message) (count : Nat),
      batch.length = count % 500 →
      (clearLoop docs batch count).1.flatten = batch ++ docs ∧
      (clearLoop docs batch count).2 = count + docs.length ∧
      ∀ b ∈ (clearLoop docs batch count).1, b.length ≤ 500 := by
  induction docs with
  | nil =>
      intro batch count hinv
      by_cases h : count % 500 = 0
      · have hb : batch = [] := List.eq_nil_of_length_eq_zero (by omega)
        simp [clearLoop, h, hb]
      · have hlt : count % 500 < 500 := Nat.mod_lt count (by norm_num)
        refine ⟨by simp [clearLoop, h], by simp [clearLoop, h], ?_⟩
        intro b hb
        simp [clearLoop, h] at hb
        subst hb
        omega
  | cons d ds ih =>
      intro batch count hinv
      by_cases h : (count + 1) % 500 = 0
      · have r := ih [] (count + 1) (by simp [h])
        have hlt : count % 500 < 500 := Nat.mod_lt count (by norm_num)
        refine ⟨?_, ?_, ?_⟩ <;> simp [clearLoop, h]
        · rw [r.1]
          simp
        · rw [r.2.1]
          omega
        · constructor
          · omega
          · exact fun b hb => r.2.2 b hb
      · have hinv' : (batch ++ [d]).length = (count + 1) % 500 := by
          simp only [List.length_append, List.length_cons,
            List.length_nil]
          omega
        have r := ih (batch ++ [d]) (count + 1) hinv'
        refine ⟨?_, ?_, ?_⟩ <;> simp [clearLoop, h]
        · rw [r.1]
          simp
        · rw [r.2.1]
          omega
        · exact fun b hb => r.2.2 b hb

/-! ## Claims about the Context Store -/

/-- C8 counterexample: a supplied empty-string session_id is falsy in
Python, so clear_short_term_context deletes a message whose session_id
("s1") does not match the supplied scope (""). -/
theorem C8_counterexample :
    (clear_short_term_context
        [{ role := "user", content := "x", session_id := some "s1",
           metadata := [], timestamp := 0, expires_at := 0 }]
        (some "")).2 = 1 ∧
    (clear_short_term_context
        [{ role := "user", content := "x", session_id := some "s1",
           metadata := [], timestamp := 0, expires_at := 0 }]
        (some "")).1.flatten =
      [{ role := "user", content := "x", session_id := some "s1",
         metadata := [], timestamp := 0, expires_at := 0 }] ∧
    (some "s1" : Option String) ≠ some "" := by
  decide

/-- C8 (amended): clear_short_term_context deletes exactly the documents
in scope — all of the user's messages when session_id is missing or the
empty string, only the matching ones for a non-empty session_id — commits
them in batches of at most 500 deletes, and returns exactly the number of
messages deleted. -/
theorem C8_clear_batched (msgs : List Message) (sid : Option String) :
    (clear_short_term_context msgs sid).1.flatten =
      scopedShortTerm msgs sid ∧
    (clear_short_term_context msgs sid).2 =
      (scopedShortTerm msgs sid).length ∧
    (clear_short_term_context msgs sid).1.all
      (fun b => b.length ≤ 500) = true := by
  have r := clearLoop_spec (scopedShortTerm msgs sid) [] 0 (by simp)
  unfold clear_short_term_context
  refine ⟨by simpa using r.1, by simpa using r.2.1, ?_⟩
  rw [List.all_eq_true]
  intro b hb
  simpa using r.2.2 b hb

/-- C1 counterexample: saving the same content twice for one user leaves
two facts with the same content_hash in the long-term store — the second
insert is not deduplicated. -/
theorem C1_counterexample :
    (let store1 := (save_memory (fun s => s) "m1" 0 0 [] "preference"
        "likes coffee" 5 none).2
     let store2 := (save_memory (fun s => s) "m2" 1 1 store1 "preference"
        "likes coffee" 5 none).2
     (store2.filter
        (fun p => p.2.content_hash == "likes coffee")).length = 2 ∧
     ¬ (store2.filter
        (fun p => p.2.content_hash == "likes coffee")).length = 1) := by
  decide

/-- C1 (amended): save_memory computes content_hash deterministically but
performs no lookup before insert, so a second save with identical content
always appends a second document with the same content_hash — the number
of facts carrying that hash grows by two over the starting store. -/
theorem C1_no_dedup_on_save (hashFn : String → String)
    (id1 id2 : String) (n1 n2 n3 n4 : Nat)
    (store : List (String × Fact)) (cat1 cat2 content : String)
    (imp1 imp2 : Int) (md1 md2 : Option (List (String × String))) :
    (let r1 := save_memory hashFn id1 n1 n2 store cat1 content imp1 md1
     let r2 := save_memory hashFn id2 n3 n4 r1.2 cat2 content imp2 md2
     r2.1.content_hash = r1.1.content_hash ∧
     r2.2 = store ++ [(id1, r1.1), (id2, r2.1)] ∧
     (r2.2.filter
        (fun p => p.2.content_hash == hashFn content)).length =
       (store.filter
        (fun p => p.2.content_hash == hashFn content)).length + 2) := by
  refine ⟨rfl, by simp [save_memory], ?_⟩
  simp [save_memory, List.filter_append]

/-- C2 counterexample: update_memory applies the updates map verbatim, so
an update with importance 15 stores an importance outside [1,10]. -/
theorem C2_counterexample :
    (let store := [("m1",
        ({ category := "fact", content := "x", content_hash := "h",
           importance := 5, metadata := [], created_at := 0,
           updated_at := 0, access_count := 0 } : Fact))]
     let r := update_memory store "m1" { importance := some 15 } 7
     ((r.2.find? (fun p => p.1 == "m1")).map
        (fun p => p.2.importance)) = some 15 ∧
     ¬ ((15 : Int) ≤ 10)) := by
  decide

/-- C2 (amended): save_memory stores an importance clamped into [1,10]
for every caller-supplied value (including 0, -5, 15), and the clamped
document is what is appended to the store; update_memory, by contrast,
writes the supplied importance verbatim (no clamp), only forcing
updated_at. -/
theorem C2_importance_clamped_on_save_only (hashFn : String → String)
    (freshId : String) (n1 n2 : Nat) (store : List (String × Fact))
    (cat content : String) (md : Option (List (String × String))) :
    (∀ imp : Int,
      1 ≤ (save_memory hashFn freshId n1 n2 store cat content
            imp md).1.importance ∧
      (save_memory hashFn freshId n1 n2 store cat content
            imp md).1.importance ≤ 10 ∧
      (save_memory hashFn freshId n1 n2 store cat content imp md).2 =
        store ++ [(freshId,
          (save_memory hashFn freshId n1 n2 store cat content
            imp md).1)]) ∧
    (∀ (f : Fact) (u : FactUpdates) (now : Nat),
      (applyUpdates f u now).importance =
        u.importance.getD f.importance) := by
  constructor
  · intro imp
    have h1 : (save_memory hashFn freshId n1 n2 store cat content
        imp md).1.importance = min (max imp 1) 10 := rfl
    refine ⟨?_, ?_, rfl⟩ <;> rw [h1] <;> omega
  · intro f u now
    rfl

/-- C3 counterexample: add_message reads the clock once for timestamp and
again for expires_at; when the clock advances between the two readings
(0, then 1), expires_at differs from timestamp + TTL. -/
theorem C3_counterexample :
    ¬ ((add_message 0 1 "user" "hi" none none).expires_at =
        (add_message 0 1 "user" "hi" none none).timestamp +
          short_term_ttl) := by
  decide

/-- C3 (amended): the stored creation timestamp is the first clock
reading and expires_at is the second clock reading plus the fixed 24-hour
TTL; expires_at = timestamp + TTL therefore holds exactly when the two
readings coincide. -/
theorem C3_expiry_from_second_clock_reading (now1 now2 now : Nat)
    (role content : String) (sid : Option String)
    (md : Option (List (String × String))) :
    (add_message now1 now2 role content sid md).timestamp = now1 ∧
    (add_message now1 now2 role content sid md).expires_at =
      now2 + short_term_ttl ∧
    (add_message now now role content sid md).expires_at =
      (add_message now now role content sid md).timestamp +
        short_term_ttl := by
  exact ⟨rfl, rfl, rfl⟩

/-- Inserting into a descending-importance list never yields nil. -/
theorem insertFactDesc_ne_nil (f : String × Fact)
    (l : List (String × Fact)) : insertFactDesc f l ≠ [] := by
  cases l with
  | nil => simp [insertFactDesc]
  | cons g gs =>
      unfold insertFactDesc
      split <;> simp

/-! ## Claims about the Context Builder and Compression Engine -/

/-- C4: build_context with include_long_term = false is exactly the
recent conversation (no system entry from long-term facts); with
include_long_term = true and an empty fact store it is also exactly the
recent conversation (no empty system entry); with at least one fact and a
positive long-term limit it is exactly one system-role entry — the fixed
prefix followed by one bulleted line per top-importance fact, joined by
newlines — followed by the recent messages reduced to role and content in
chronological order. -/
theorem C4_build_context_shape (facts : List (String × Fact))
    (msgs : List Message) (stl ltl : Nat) (f : String × Fact)
    (fs : List (String × Fact)) :
    build_context facts msgs false stl ltl =
      get_conversation_context msgs stl ∧
    build_context [] msgs true stl ltl =
      get_conversation_context msgs stl ∧
    build_context (f :: fs) msgs true stl (ltl + 1) =
      { role := "system",
        content := "User information from previous conversations:\n" ++
          String.intercalate "\n"
            ((get_memories (f :: fs) none (ltl + 1)).map
              (fun mem => "- " ++ mem.2.content)) } ::
        get_conversation_context msgs stl := by
  refine ⟨by simp [build_context], by simp [build_context, get_memories,
    sortByImportanceDesc], ?_⟩
  have h1 : sortByImportanceDesc (f :: fs) ≠ [] := by
    unfold sortByImportanceDesc
    exact insertFactDesc_ne_nil f (sortByImportanceDesc fs)
  obtain ⟨y, ys, hy⟩ := List.exists_cons_of_ne_nil h1
  simp [build_context, get_memories, hy]

/-- C5: compress_to_long_term on a user with zero short-term messages
returns the summarizer's "No messages to summarize" error result and
leaves the long-term store unchanged; in general, whenever summarization
yields an error result, compress_to_long_term returns that result
unchanged and persists no facts. -/
theorem C5_compress_error_propagation (hashFn : String → String)
    (freshIds : List String) (n1 n2 : Nat)
    (parse : String → Option SummaryResult)
    (call : Except String String) (store : List (String × Fact))
    (shortTerm : List Message) :
    compress_to_long_term hashFn freshIds n1 n2 parse call [] store =
      (CompressResult.errorResult
        { summary := some "", facts := some [],
          error := some "No messages to summarize" }, store) ∧
    ((summarize_conversation parse call none shortTerm).error.isSome →
      compress_to_long_term hashFn freshIds n1 n2 parse call
          shortTerm store =
        (CompressResult.errorResult
          (summarize_conversation parse call none shortTerm), store)) := by
  constructor
  · rfl
  · intro h
    simp [compress_to_long_term, h]

/-- C5 witness: a concrete erroring summarization (the completion call
raises "boom" on a one-message conversation) is propagated unchanged and
saves nothing. -/
theorem C5_compress_error_propagation_witness :
    compress_to_long_term (fun s => s) [] 0 0 (fun _ => none)
        (Except.error "boom")
        [{ role := "user", content := "hi", session_id := none,
           metadata := [], timestamp := 0, expires_at := 0 }] [] =
      (CompressResult.errorResult
        (summarize_conversation (fun _ => none) (Except.error "boom") none
          [{ role := "user", content := "hi", session_id := none,
             metadata := [], timestamp := 0, expires_at := 0 }]), []) :=
  (C5_compress_error_propagation (fun s => s) [] 0 0 (fun _ => none)
    (Except.error "boom") []
    [{ role := "user", content := "hi", session_id := none,
       metadata := [], timestamp := 0, expires_at := 0 }]).2 (by decide)

/-- C6: when the summarization payload fails to parse as JSON,
summarize_conversation returns the entire raw text as the summary with
empty fact and topic lists and no error key. -/
theorem C6_malformed_payload_degrades
    (parse : String → Option SummaryResult) (raw : String)
    (e : ChatEntry) (ms : List ChatEntry) (shortTerm : List Message)
    (h : parse raw = none) :
    summarize_conversation parse (Except.ok raw) (some (e :: ms))
        shortTerm =
      { summary := some raw, facts := some [], topics := some [],
        error := none } := by
  simp [summarize_conversation, h]

/-- C6 witness: a concrete freeform (non-JSON) payload on a one-message
conversation degrades to the raw text with empty lists. -/
theorem C6_malformed_payload_degrades_witness :
    summarize_conversation (fun _ => none) (Except.ok "freeform text")
        (some [{ role := "user", content := "hi" }]) [] =
      { summary := some "freeform text", facts := some [],
        topics := some [], error := none } :=
  C6_malformed_payload_degrades (fun _ => none) "freeform text"
    { role := "user", content := "hi" } [] [] rfl

end Eva
